import Mathlib

/-!
Verification of the moderation-state reconciliation and live-update subsystem
of the HaterAide mock social feed.

The definitions below are shallow embeddings of:
* the moderation data model and the per-reply resolver helpers
  (`getReplyModerationInfo`, `shouldModerateContent`, the preload effect)
  from `src/frontend/src/App.tsx` (the `HaterAideAnalysis` component);
* the Reply component's moderation decision (`moderationType`, the
  `reply.hidden` early return) from `src/frontend/src/components/Reply.tsx`;
* the `WebSocketService` reconnecting transport channel from
  `src/frontend/src/services/websocket.ts`.

JS `Map<string, T>` objects are modelled by their lookup semantics as
functions `String → Option T`; asynchronous runtime behaviour (socket
events, timers) is modelled as an explicit event-step function on a world
state that records the service fields together with the runtime's live
sockets and timers, each transition also emitting a list of observable
effects (socket creations, timer arm/disarm, listener invocations).
-/

namespace HaterAide

/-- `action_type` of a `ModerationAction`: `'blur' | 'hide'`. -/
inductive ActionType
  | blur
  | hide
deriving DecidableEq, Repr

/-- The `ModerationAction` record of `websocket.ts`. -/
structure ModerationAction where
  reply_id : String
  action_type : ActionType
  reason : String
  sentiment : String
  timestamp : String
  status : String
deriving DecidableEq, Repr

/-- An entry of a reply analysis' `analysis_result.moderation_actions` array
(the untyped objects consumed by the fallback branch of
`getReplyModerationInfo`); only the presence or absence of the
`action_type` field is ever inspected (`'action_type' in moderation`). -/
structure FallbackModeration where
  action_type : Option ActionType
deriving DecidableEq, Repr

/-- The `analysis_result` object of one entry of
`reply_analyzer_results.reply_analyses`. A missing `sentiment` field is
`none`. -/
structure AnalysisResult where
  sentiment : Option String
  moderation_actions : List FallbackModeration
deriving DecidableEq, Repr

/-- One entry of `reply_analyzer_results.reply_analyses`. A missing or null
`analysis_result` is `none`. -/
structure ReplyAnalysis where
  reply_id : String
  analysis_result : Option AnalysisResult
deriving DecidableEq, Repr

/-- The `sentiment` carried by an analysis entry, if any
(`analysis.analysis_result?.sentiment`). -/
def ReplyAnalysis.sentimentField (a : ReplyAnalysis) : Option String :=
  a.analysis_result.bind (fun r => r.sentiment)

/-- Lookup semantics of a JS `Map<string, α>`. -/
def Store (α : Type) : Type := String → Option α

/-- `new Map()`. -/
def storeEmpty {α : Type} : Store α := fun _ => none

/-- `map.set(k, v)` (keys unique, setting replaces). -/
def storeSet {α : Type} (m : Store α) (k : String) (v : α) : Store α :=
  fun q => if q = k then some v else m q

/-! ### The App-level resolver (`App.tsx`) -/

/-- `getReplyModerationInfo` from `App.tsx`: first the real-time map, then
the preloaded map, then the first entry of the analysis results'
`moderation_actions` array.  `Sum.inl` carries a `ModerationAction` coming
from one of the two maps, `Sum.inr` an untyped fallback object;
`replyAnalysisResults = none` models a null prop or a missing
`reply_analyses` field. -/
def getReplyModerationInfo (moderationActions preloadedModerations : Store ModerationAction)
    (replyAnalysisResults : Option (List ReplyAnalysis)) (replyId : String) :
    Option (ModerationAction ⊕ FallbackModeration) :=
  match moderationActions replyId with
  | some realtimeAction => some (Sum.inl realtimeAction)
  | none =>
    match preloadedModerations replyId with
    | some preloadedAction => some (Sum.inl preloadedAction)
    | none =>
      match replyAnalysisResults with
      | none => none
      | some analyses =>
        let actions :=
          match analyses.find? (fun a => a.reply_id == replyId) with
          | some ra =>
            match ra.analysis_result with
            | some res => res.moderation_actions
            | none => []
          | none => []
        actions.head?.map Sum.inr

/-- `shouldModerateContent` from `App.tsx`: the resolved action's
`action_type` when the resolved object carries one, else null. -/
def shouldModerateContent (moderationActions preloadedModerations : Store ModerationAction)
    (replyAnalysisResults : Option (List ReplyAnalysis)) (replyId : String) :
    Option ActionType :=
  match getReplyModerationInfo moderationActions preloadedModerations replyAnalysisResults replyId with
  | none => none
  | some (Sum.inl a) => some a.action_type
  | some (Sum.inr f) => f.action_type

/-! ### The preload effect (`App.tsx`) -/

/-- One iteration of the preload `forEach` of `App.tsx`: an analysis entry
whose sentiment is `harmful` or `unfriendly` is turned into a
`ModerationAction` and stored under its `reply_id`. -/
def preloadStep (now : String) (acc : Store ModerationAction) (analysis : ReplyAnalysis) :
    Store ModerationAction :=
  match analysis.sentimentField with
  | some s =>
    if s = "harmful" ∨ s = "unfriendly" then
      storeSet acc analysis.reply_id
        { reply_id := analysis.reply_id
          action_type := if s = "harmful" then ActionType.hide else ActionType.blur
          reason := "Content flagged as " ++ s ++ " by AI analysis"
          sentiment := s
          timestamp := now
          status := "applied" }
    else acc
  | none => acc

/-- The preload `useEffect` of `App.tsx`: fold the step over
`reply_analyzer_results.reply_analyses`, starting from an empty map.
`now` stands for `new Date().toISOString()`. -/
def preloadModerations (analyses : List ReplyAnalysis) (now : String) :
    Store ModerationAction :=
  analyses.foldl (preloadStep now) storeEmpty

/-- An analysis entry whose sentiment passes the preload filter. -/
def flaggedSentiment (a : ReplyAnalysis) : Prop :=
  a.sentimentField = some "harmful" ∨ a.sentimentField = some "unfriendly"

instance (a : ReplyAnalysis) : Decidable (flaggedSentiment a) := by
  unfold flaggedSentiment; infer_instance

/-! ### The Reply component (`Reply.tsx`) -/

/-- JS `x || 'unknown'` on an optional sentiment string (both a missing
field and the empty string are falsy). -/
def sentimentOrUnknown (s : Option String) : String :=
  match s with
  | some v => if v = "" then "unknown" else v
  | none => "unknown"

/-- `getReplySentiment` from `Reply.tsx`: look the reply up in the
analysis data, defaulting to `'unknown'` when the data or the entry or its
sentiment is absent. -/
def getReplySentimentFromData (replyAnalysisData : Option (List ReplyAnalysis))
    (replyId : String) : String :=
  match replyAnalysisData with
  | none => "unknown"
  | some analyses =>
    match analyses.find? (fun a => a.reply_id == replyId) with
    | some ra => sentimentOrUnknown ra.sentimentField
    | none => "unknown"

/-- `moderationType` from `Reply.tsx` line 85:
`moderationAction?.action_type || (sentiment === 'harmful' ? 'hide' :
sentiment === 'unfriendly' ? 'blur' : null)`. -/
def moderationType (moderationAction : Option ModerationAction) (sentiment : String) :
    Option ActionType :=
  match moderationAction with
  | some a => some a.action_type
  | none =>
    if sentiment = "harmful" then some ActionType.hide
    else if sentiment = "unfriendly" then some ActionType.blur
    else none

/-- How the Reply component renders its text content. -/
inductive RenderKind
  | hiddenView
  | blurredText
  | plainText
deriving DecidableEq, Repr

/-- The rendering decision of the Reply component: the early return
`if (reply.hidden || (moderationType === 'hide' && !isContentRevealed))`
yields the hidden notice, then text content is blurred when
`moderationType === 'blur' && !isContentRevealed`. -/
def replyRenderKind (hidden : Bool) (moderationAction : Option ModerationAction)
    (replyAnalysisData : Option (List ReplyAnalysis)) (replyId : String)
    (isContentRevealed : Bool) : RenderKind :=
  let sentiment := getReplySentimentFromData replyAnalysisData replyId
  let mt := moderationType moderationAction sentiment
  if hidden ∨ (mt = some ActionType.hide ∧ ¬ isContentRevealed) then RenderKind.hiddenView
  else if mt = some ActionType.blur ∧ ¬ isContentRevealed then RenderKind.blurredText
  else RenderKind.plainText

/-! ### The transport channel (`websocket.ts`)

`WebSocketService` together with the browser runtime is modelled as a
world state: the service's four fields (`ws`, `isConnecting`,
`reconnectTimer`, `listeners`), the runtime's sockets (identified by
numeric ids, each with its current ready state; a socket's handlers stay
attached for its whole life) and the runtime's live timers.  Each service
method and each runtime event is a transition `World → World × List
Effect`, the effect list recording socket creations, timer arming and
disarming, socket closes and listener invocations. -/

/-- A successfully `JSON.parse`d incoming message: its `type` discriminator
and its `action` field, `none` when the field is absent or not a
well-formed moderation action (the channel never inspects it). -/
structure ParsedMessage where
  type : String
  action : Option ModerationAction
deriving DecidableEq, Repr

/-- A raw frame arriving on the socket: either text that `JSON.parse`
rejects, or a parsed structured value. -/
inductive RawMessage
  | unparseable
  | parsed (msg : ParsedMessage)
deriving DecidableEq, Repr

/-- A subscriber callback: consumes the dispatched update and either
returns normally or raises (`Except.error`). -/
def Callback : Type := ParsedMessage → Except Unit Unit

/-- The ready state of a runtime socket. -/
inductive SockState
  | connecting
  | opened
  | closing
  | closed
deriving DecidableEq, Repr

/-- The fields of the `WebSocketService` instance. -/
structure Service where
  wsRef : Option Nat
  isConnecting : Bool
  reconnectTimer : Option Nat
  listeners : List (String × Callback)

/-- The service plus the runtime it lives in. -/
structure World where
  svc : Service
  sockets : List (Nat × SockState)
  liveTimers : List Nat
  nextSocket : Nat
  nextTimer : Nat

/-- Observable effects of a transition. -/
inductive Effect
  | createSocket (sid : Nat)
  | closeSocket (sid : Nat)
  | setTimer (tid : Nat) (delayMs : Nat)
  | clearTimer (tid : Nat)
  | invoke (subId : String) (ok : Bool)
deriving DecidableEq, Repr

/-- The ready state of socket `sid`, if it exists. -/
def sockState (w : World) (sid : Nat) : Option SockState :=
  (w.sockets.find? (fun p => p.1 == sid)).map (fun p => p.2)

/-- Update the ready state of socket `sid`. -/
def setSockState (w : World) (sid : Nat) (st : SockState) : World :=
  { w with sockets := w.sockets.map (fun p => if p.1 == sid then (p.1, st) else p) }

/-- `clearReconnectTimer`: when a timer handle is stored, `clearTimeout` it
(a no-op on an already fired timer) and null the field. -/
def clearReconnectTimer (w : World) : World × List Effect :=
  match w.svc.reconnectTimer with
  | none => (w, [])
  | some tid =>
    ({ w with svc := { w.svc with reconnectTimer := none }
              liveTimers := w.liveTimers.filter (fun t => t != tid) },
     [Effect.clearTimer tid])

/-- `scheduleReconnect`: clear any stored timer, then arm a fresh
`setTimeout(connect, reconnectInterval)` and store its handle.  The fired
callback does not null the stored handle, so the handle may go stale. -/
def scheduleReconnect (w : World) : World × List Effect :=
  ({ (clearReconnectTimer w).1 with
      svc := { (clearReconnectTimer w).1.svc with
                reconnectTimer := some (clearReconnectTimer w).1.nextTimer }
      liveTimers := (clearReconnectTimer w).1.liveTimers ++ [(clearReconnectTimer w).1.nextTimer]
      nextTimer := (clearReconnectTimer w).1.nextTimer + 1 },
   (clearReconnectTimer w).2 ++ [Effect.setTimer (clearReconnectTimer w).1.nextTimer 5000])

/-- The guard of `connect`:
`this.ws?.readyState === WebSocket.OPEN || this.isConnecting`. -/
def connectGuard (w : World) : Bool :=
  (match w.svc.wsRef with
   | some sid => decide (sockState w sid = some SockState.opened)
   | none => false) || w.svc.isConnecting

/-- `connect()`: no-op when the guard holds; otherwise set `isConnecting`,
construct a socket (attaching its handlers) and store it in `ws`.
`ctorOk = false` models the `new WebSocket` constructor throwing, handled
by the `catch` branch: reset `isConnecting` and schedule a reconnect. -/
def connect (ctorOk : Bool) (w : World) : World × List Effect :=
  if connectGuard w then (w, [])
  else if ctorOk then
    ({ w with svc := { w.svc with isConnecting := true, wsRef := some w.nextSocket }
              sockets := w.sockets ++ [(w.nextSocket, SockState.connecting)]
              nextSocket := w.nextSocket + 1 },
     [Effect.createSocket w.nextSocket])
  else
    scheduleReconnect { w with svc := { w.svc with isConnecting := false } }

/-- The `onopen` handler firing on socket `sid`: the socket becomes open;
the handler resets `isConnecting` and clears any pending reconnect timer. -/
def fireOpen (w : World) (sid : Nat) : World × List Effect :=
  clearReconnectTimer
    { setSockState w sid SockState.opened with
        svc := { (setSockState w sid SockState.opened).svc with isConnecting := false } }

/-- The `onerror` handler firing on socket `sid`: it only resets
`isConnecting`. -/
def fireError (w : World) (sid : Nat) : World × List Effect :=
  ({ w with svc := { w.svc with isConnecting := false } }, [])

/-- The `onclose` handler firing on socket `sid`: the socket becomes
closed; the handler resets `isConnecting` and schedules a reconnect. -/
def fireClose (w : World) (sid : Nat) : World × List Effect :=
  scheduleReconnect
    { setSockState w sid SockState.closed with
        svc := { (setSockState w sid SockState.closed).svc with isConnecting := false } }

/-- `notifyListeners`: invoke every registered callback in order inside a
`try`/`catch`, so a raising callback is swallowed and iteration
continues. -/
def notifyListeners (ls : List (String × Callback)) (u : ParsedMessage) : List Effect :=
  match ls with
  | [] => []
  | (id, cb) :: rest =>
    match cb u with
    | Except.ok _ => Effect.invoke id true :: notifyListeners rest u
    | Except.error _ => Effect.invoke id false :: notifyListeners rest u

/-- The `onmessage` handler: `JSON.parse` inside a `try`/`catch` (a parse
failure is silently swallowed), then dispatch exactly when the `type`
discriminator is `'content_moderation'`; nothing else is validated. -/
def fireMessage (w : World) (raw : RawMessage) : World × List Effect :=
  match raw with
  | RawMessage.unparseable => (w, [])
  | RawMessage.parsed m =>
    if m.type = "content_moderation" then (w, notifyListeners w.svc.listeners m)
    else (w, [])

/-- `ws.close()` issued by `disconnect`: a not-yet-closed socket starts
closing (its close event will be delivered later); closing a closed socket
is a no-op. -/
def closeSock (w : World) (sid : Nat) : World :=
  match sockState w sid with
  | some SockState.closed => w
  | _ => setSockState w sid SockState.closing

/-- `disconnect()`: clear any stored reconnect timer, `close()` and drop
the referenced socket if any, and clear all subscriptions. -/
def disconnect (w : World) : World × List Effect :=
  match (clearReconnectTimer w).1.svc.wsRef with
  | some sid =>
    ({ closeSock (clearReconnectTimer w).1 sid with
        svc := { (closeSock (clearReconnectTimer w).1 sid).svc with
                  wsRef := none, listeners := [] } },
     (clearReconnectTimer w).2 ++ [Effect.closeSocket sid])
  | none =>
    ({ (clearReconnectTimer w).1 with
        svc := { (clearReconnectTimer w).1.svc with listeners := [] } },
     (clearReconnectTimer w).2)

/-- `listeners.set(id, cb)`: replace the callback under an existing id,
else append. -/
def listenerSet (ls : List (String × Callback)) (id : String) (cb : Callback) :
    List (String × Callback) :=
  if ls.any (fun p => p.1 == id) then
    ls.map (fun p => if p.1 == id then (id, cb) else p)
  else ls ++ [(id, cb)]

/-- `subscribe(id, callback)`. -/
def subscribe (w : World) (id : String) (cb : Callback) : World :=
  { w with svc := { w.svc with listeners := listenerSet w.svc.listeners id cb } }

/-- `unsubscribe(id)`: `listeners.delete(id)`. -/
def unsubscribe (w : World) (id : String) : World :=
  { w with svc := { w.svc with listeners := w.svc.listeners.filter (fun p => p.1 != id) } }

/-- Timer `tid` firing: the runtime retires the timer and runs its
callback, which is `this.connect()`. -/
def fireTimer (ctorOk : Bool) (w : World) (tid : Nat) : World × List Effect :=
  connect ctorOk { w with liveTimers := w.liveTimers.filter (fun t => t != tid) }

/-- Every stimulus the service can receive: its public methods and the
runtime callbacks (socket events and timer expiry). -/
inductive Event
  | evConnect (ctorOk : Bool)
  | evOpen (sid : Nat)
  | evError (sid : Nat)
  | evClose (sid : Nat)
  | evMessage (raw : RawMessage)
  | evTimer (ctorOk : Bool) (tid : Nat)
  | evDisconnect
  | evSubscribe (id : String) (cb : Callback)
  | evUnsubscribe (id : String)

/-- The one-step semantics of the channel. -/
def applyEvent (w : World) (e : Event) : World × List Effect :=
  match e with
  | Event.evConnect ctorOk => connect ctorOk w
  | Event.evOpen sid => fireOpen w sid
  | Event.evError sid => fireError w sid
  | Event.evClose sid => fireClose w sid
  | Event.evMessage raw => fireMessage w raw
  | Event.evTimer ctorOk tid => fireTimer ctorOk w tid
  | Event.evDisconnect => disconnect w
  | Event.evSubscribe id cb => (subscribe w id cb, [])
  | Event.evUnsubscribe id => (unsubscribe w id, [])

/-- The timers armed by a transition, with their delays. -/
def scheduledTimers : List Effect → List (Nat × Nat)
  | [] => []
  | Effect.setTimer tid d :: rest => (tid, d) :: scheduledTimers rest
  | _ :: rest => scheduledTimers rest

/-- The subscription ids invoked by a transition, in order. -/
def invokedIds : List Effect → List String
  | [] => []
  | Effect.invoke id _ :: rest => id :: invokedIds rest
  | _ :: rest => invokedIds rest

/-- The reconnect-timer invariant: every live timer of the runtime is the
one whose handle the service currently stores, and at most one timer is
pending. -/
def TimerInv (w : World) : Prop :=
  (∀ tid ∈ w.liveTimers, w.svc.reconnectTimer = some tid) ∧ w.liveTimers.length ≤ 1

/-! ### The per-reply subscription of the Reply component (`Reply.tsx`) -/

/-- The moderation-related local state of one mounted Reply component. -/
structure ReplyModState where
  moderationAction : Option ModerationAction
  isContentRevealed : Bool
  isMediaRevealed : Bool
deriving DecidableEq, Repr

/-- The subscription callback of the Reply component for reply `replyId`:
on a dispatched update it mutates the component state only when the
update's `action.reply_id` equals its own id, storing the action and
resetting both revealed flags. -/
def replyOnModerationUpdate (replyId : String) (st : ReplyModState)
    (action : ModerationAction) : ReplyModState :=
  if action.reply_id = replyId then
    { moderationAction := some action, isContentRevealed := false, isMediaRevealed := false }
  else st

/-- A feed of mounted Reply components, each subscribed under its own id:
the channel's dispatch (which invokes every registered callback, see
`notifyListeners`) runs each component's callback on the same update. -/
def feedOnModerationUpdate (feed : List (String × ReplyModState))
    (action : ModerationAction) : List (String × ReplyModState) :=
  feed.map (fun p => (p.1, replyOnModerationUpdate p.1 p.2 action))

/-! ### Concrete data for witnesses and counterexamples -/

/-- A concrete Live action used in witnesses (targets reply `"r2"`). -/
def liveActW : ModerationAction :=
  { reply_id := "r2", action_type := ActionType.hide
    reason := "live", sentiment := "harmful", timestamp := "t1", status := "applied" }

/-- A concrete Preloaded action used in witnesses. -/
def preActW : ModerationAction :=
  { reply_id := "r2", action_type := ActionType.blur
    reason := "pre", sentiment := "unfriendly", timestamp := "t0", status := "applied" }

/-- Concrete analysis data used in witnesses: `"r1"` analysed as harmful,
`"r2"` as unfriendly, `"r3"` as friendly. -/
def analysesW : List ReplyAnalysis :=
  [ { reply_id := "r1", analysis_result := some { sentiment := some "harmful", moderation_actions := [] } }
  , { reply_id := "r2", analysis_result := some { sentiment := some "unfriendly", moderation_actions := [] } }
  , { reply_id := "r3", analysis_result := some { sentiment := some "friendly", moderation_actions := [] } } ]

/-- A callback that returns normally. -/
def cbOk : Callback := fun _ => Except.ok ()

/-- A callback that raises. -/
def cbRaise : Callback := fun _ => Except.error ()

/-- A world with one open connection and one subscriber. -/
def wLive : World :=
  { svc := { wsRef := some 0, isConnecting := false, reconnectTimer := none
             listeners := [("hateraide-analysis", cbOk)] }
    sockets := [(0, SockState.opened)]
    liveTimers := []
    nextSocket := 1
    nextTimer := 0 }

/-- A world with one open connection and no subscribers. -/
def wOpen : World :=
  { svc := { wsRef := some 0, isConnecting := false, reconnectTimer := none, listeners := [] }
    sockets := [(0, SockState.opened)]
    liveTimers := []
    nextSocket := 1
    nextTimer := 0 }

/-- A world with a connection attempt in flight. -/
def wConn : World :=
  { svc := { wsRef := none, isConnecting := true, reconnectTimer := none, listeners := [] }
    sockets := []
    liveTimers := []
    nextSocket := 0
    nextTimer := 0 }

/-- A world with an open connection and two per-reply subscribers, the
first of which raises on every update. -/
def wIso : World :=
  { svc := { wsRef := some 0, isConnecting := false, reconnectTimer := none
             listeners := [("reply-r1", cbRaise), ("reply-r2", cbOk)] }
    sockets := [(0, SockState.opened)]
    liveTimers := []
    nextSocket := 1
    nextTimer := 0 }

/-- A well-formed moderation update envelope. -/
def updIso : ParsedMessage := { type := "content_moderation", action := some liveActW }

/-- A Reply component state whose content and media have been revealed. -/
def stRevealed : ReplyModState :=
  { moderationAction := none, isContentRevealed := true, isMediaRevealed := true }

/-- A feed of two mounted Reply components. -/
def feedW : List (String × ReplyModState) := [("r1", stRevealed), ("r2", stRevealed)]

/-! ### Theorems for the resolver claims -/

/-- C1: for every content item that has both a Live moderation action (in
the real-time map) and a Preloaded moderation action (in the preloaded
map), resolving the item's moderation returns the Live action, regardless
of the Preloaded action's content. -/
theorem live_overrides_preloaded
    (moderationActions preloadedModerations : Store ModerationAction)
    (replyAnalysisResults : Option (List ReplyAnalysis)) (replyId : String)
    (liveAction preAction : ModerationAction)
    (hLive : moderationActions replyId = some liveAction)
    (hPre : preloadedModerations replyId = some preAction) :
    getReplyModerationInfo moderationActions preloadedModerations replyAnalysisResults replyId
      = some (Sum.inl liveAction) := by
  unfold getReplyModerationInfo
  rw [hLive]

/-- Witness for C1 at a concrete state where both maps hold an entry for
`"r2"`. -/
theorem live_overrides_preloaded_witness :
    getReplyModerationInfo (storeSet storeEmpty "r2" liveActW)
      (storeSet storeEmpty "r2" preActW) none "r2" = some (Sum.inl liveActW) :=
  live_overrides_preloaded (storeSet storeEmpty "r2" liveActW)
    (storeSet storeEmpty "r2" preActW) none "r2" liveActW preActW (by decide) (by decide)

/-- A single preload step puts an entry at `rid` exactly when one was
already there or the processed analysis is a flagged one for `rid`. -/
theorem preloadStep_isSome (now : String) (m : Store ModerationAction)
    (a : ReplyAnalysis) (rid : String) :
    ((preloadStep now m a) rid).isSome ↔
      (m rid).isSome ∨ (a.reply_id = rid ∧ flaggedSentiment a) := by
  unfold preloadStep flaggedSentiment
  cases hs : a.sentimentField with
  | none => simp
  | some s =>
    dsimp only
    by_cases hf : s = "harmful" ∨ s = "unfriendly"
    · rw [if_pos hf]
      unfold storeSet
      by_cases hr : rid = a.reply_id
      · subst hr
        rw [if_pos rfl]
        constructor
        · intro _
          refine Or.inr ⟨rfl, ?_⟩
          rcases hf with hf | hf
          · exact Or.inl (by rw [hf])
          · exact Or.inr (by rw [hf])
        · intro _
          rfl
      · rw [if_neg hr]
        constructor
        · exact Or.inl
        · rintro (h | ⟨h, _⟩)
          · exact h
          · exact absurd h.symm hr
    · rw [if_neg hf]
      constructor
      · exact Or.inl
      · rintro (h | ⟨_, hfl | hfl⟩)
        · exact h
        · exact absurd (Or.inl (Option.some_injective _ hfl)) hf
        · exact absurd (Or.inr (Option.some_injective _ hfl)) hf

/-- A value present after a single preload step either was already present
or is the action synthesized from the processed flagged analysis. -/
theorem preloadStep_eq_some (now : String) (m : Store ModerationAction)
    (a : ReplyAnalysis) (rid : String) (act : ModerationAction) :
    (preloadStep now m a) rid = some act →
      m rid = some act ∨
        (a.reply_id = rid ∧
          ((a.sentimentField = some "harmful" ∧ act.action_type = ActionType.hide) ∨
           (a.sentimentField = some "unfriendly" ∧ act.action_type = ActionType.blur))) := by
  unfold preloadStep
  cases hs : a.sentimentField with
  | none => exact Or.inl
  | some s =>
    dsimp only
    by_cases hf : s = "harmful" ∨ s = "unfriendly"
    · rw [if_pos hf]
      unfold storeSet
      by_cases hr : rid = a.reply_id
      · subst hr
        rw [if_pos rfl]
        intro h
        refine Or.inr ⟨rfl, ?_⟩
        rcases hf with hf | hf <;> subst hf
        · exact Or.inl ⟨rfl, by rw [← Option.some_injective _ h]; rfl⟩
        · exact Or.inr ⟨rfl, by rw [← Option.some_injective _ h]; rfl⟩
      · rw [if_neg hr]
        exact Or.inl
    · rw [if_neg hf]
      exact Or.inl

/-- Folding the preload step: an entry is present at `rid` exactly when
the initial map had one or some flagged analysis for `rid` was processed. -/
theorem preload_foldl_isSome (now : String) :
    ∀ (l : List ReplyAnalysis) (m : Store ModerationAction) (rid : String),
      ((l.foldl (preloadStep now) m) rid).isSome ↔
        (m rid).isSome ∨ ∃ a ∈ l, a.reply_id = rid ∧ flaggedSentiment a := by
  intro l
  induction l with
  | nil => intro m rid; simp
  | cons a tl ih =>
    intro m rid
    rw [List.foldl_cons, ih, preloadStep_isSome]
    constructor
    · rintro ((h | h) | ⟨b, hb, h⟩)
      · exact Or.inl h
      · exact Or.inr ⟨a, List.mem_cons_self a tl, h⟩
      · exact Or.inr ⟨b, List.mem_cons_of_mem a hb, h⟩
    · rintro (h | ⟨b, hb, h⟩)
      · exact Or.inl (Or.inl h)
      · rcases List.mem_cons.mp hb with hb | hb
        · subst hb; exact Or.inl (Or.inr h)
        · exact Or.inr ⟨b, hb, h⟩

/-- Folding the preload step: any value present at `rid` either comes from
the initial map or is the synthesis of a processed flagged analysis. -/
theorem preload_foldl_eq_some (now : String) :
    ∀ (l : List ReplyAnalysis) (m : Store ModerationAction) (rid : String)
      (act : ModerationAction),
      (l.foldl (preloadStep now) m) rid = some act →
        m rid = some act ∨
          ∃ a ∈ l, a.reply_id = rid ∧
            ((a.sentimentField = some "harmful" ∧ act.action_type = ActionType.hide) ∨
             (a.sentimentField = some "unfriendly" ∧ act.action_type = ActionType.blur)) := by
  intro l
  induction l with
  | nil => intro m rid act h; exact Or.inl h
  | cons a tl ih =>
    intro m rid act h
    rw [List.foldl_cons] at h
    rcases ih (preloadStep now m a) rid act h with h1 | ⟨b, hb, h1⟩
    · rcases preloadStep_eq_some now m a rid act h1 with h2 | h2
      · exact Or.inl h2
      · exact Or.inr ⟨a, List.mem_cons_self a tl, h2⟩
    · exact Or.inr ⟨b, List.mem_cons_of_mem a hb, h1⟩

/-- C4: the Preloaded mapping contains an item id exactly when its batch
analysis entry is labelled `harmful` or `unfriendly`; every stored action
carries `hide` for a harmful entry and `blur` for an unfriendly one (in
particular no none-valued entries exist). -/
theorem preload_characterization (analyses : List ReplyAnalysis) (now : String)
    (rid : String) :
    ((preloadModerations analyses now rid).isSome ↔
      ∃ a ∈ analyses, a.reply_id = rid ∧ flaggedSentiment a) ∧
    (∀ act, preloadModerations analyses now rid = some act →
      ∃ a ∈ analyses, a.reply_id = rid ∧
        ((a.sentimentField = some "harmful" ∧ act.action_type = ActionType.hide) ∨
         (a.sentimentField = some "unfriendly" ∧ act.action_type = ActionType.blur))) := by
  constructor
  · rw [preloadModerations, preload_foldl_isSome]
    simp [storeEmpty]
  · intro act h
    rcases preload_foldl_eq_some now analyses storeEmpty rid act h with h1 | h1
    · exact absurd h1 (by simp [storeEmpty])
    · exact h1

/-- Witness for C4: on the concrete analysis data, `"r2"` (unfriendly) is
a key of the preloaded map and its action is a blur; `"r3"` (friendly) is
absent. -/
theorem preload_characterization_witness :
    (preloadModerations analysesW "t0" "r2").isSome ∧
    (∀ act, preloadModerations analysesW "t0" "r2" = some act →
      ∃ a ∈ analysesW, a.reply_id = "r2" ∧
        ((a.sentimentField = some "harmful" ∧ act.action_type = ActionType.hide) ∨
         (a.sentimentField = some "unfriendly" ∧ act.action_type = ActionType.blur))) ∧
    ¬ (preloadModerations analysesW "t0" "r3").isSome :=
  ⟨(preload_characterization analysesW "t0" "r2").1.mpr
      ⟨{ reply_id := "r2", analysis_result := some { sentiment := some "unfriendly", moderation_actions := [] } },
        by decide, rfl, Or.inr rfl⟩,
   (preload_characterization analysesW "t0" "r2").2,
   by decide⟩

/-- C2: a reply whose own static data carries `hidden = true` always
renders as the hidden view in the Reply component, whatever the Live
moderation action, the analysis-data sentiment and the revealed flag say
(the `reply.hidden` disjunct is checked before the moderation type derived
from the Live layer is consulted). -/
theorem hidden_flag_overrides
    (moderationAction : Option ModerationAction)
    (replyAnalysisData : Option (List ReplyAnalysis)) (replyId : String)
    (isContentRevealed : Bool) :
    replyRenderKind true moderationAction replyAnalysisData replyId isContentRevealed
      = RenderKind.hiddenView := by
  unfold replyRenderKind
  simp

/-- C3: with no Live action, the Reply component synthesizes the default
moderation from the reply's analysis sentiment: `harmful` yields `hide`,
`unfriendly` yields `blur`, and any other (or absent) label yields none;
in particular absent analysis data yields none. -/
theorem default_synthesis
    (replyAnalysisData : Option (List ReplyAnalysis)) (replyId : String) :
    (getReplySentimentFromData replyAnalysisData replyId = "harmful" →
      moderationType none (getReplySentimentFromData replyAnalysisData replyId)
        = some ActionType.hide) ∧
    (getReplySentimentFromData replyAnalysisData replyId = "unfriendly" →
      moderationType none (getReplySentimentFromData replyAnalysisData replyId)
        = some ActionType.blur) ∧
    (getReplySentimentFromData replyAnalysisData replyId ≠ "harmful" →
      getReplySentimentFromData replyAnalysisData replyId ≠ "unfriendly" →
      moderationType none (getReplySentimentFromData replyAnalysisData replyId)
        = none) ∧
    (replyAnalysisData = none →
      moderationType none (getReplySentimentFromData replyAnalysisData replyId) = none) := by
  refine ⟨fun h => ?_, fun h => ?_, fun h1 h2 => ?_, fun h => ?_⟩
  · rw [h]; rfl
  · rw [h]; rfl
  · unfold moderationType
    simp [h1, h2]
  · subst h; rfl

/-- Witness for C3: on the concrete analysis data, a harmful reply gets
`hide`, an unfriendly one `blur`, a friendly one none. -/
theorem default_synthesis_witness :
    moderationType none (getReplySentimentFromData (some analysesW) "r1") = some ActionType.hide ∧
    moderationType none (getReplySentimentFromData (some analysesW) "r2") = some ActionType.blur ∧
    moderationType none (getReplySentimentFromData (some analysesW) "r3") = none :=
  ⟨(default_synthesis (some analysesW) "r1").1 (by decide),
   (default_synthesis (some analysesW) "r2").2.1 (by decide),
   (default_synthesis (some analysesW) "r3").2.2.1 (by decide) (by decide)⟩

/-! ### Timer lemmas for the transport channel -/

/-- `TimerInv` only looks at the live timers and the stored handle. -/
theorem TimerInv_of_eq (w2 : World) {w : World} (h : TimerInv w)
    (hl : w2.liveTimers = w.liveTimers)
    (hr : w2.svc.reconnectTimer = w.svc.reconnectTimer) : TimerInv w2 := by
  constructor
  · intro t ht
    rw [hl] at ht
    rw [hr]
    exact h.1 t ht
  · rw [hl]
    exact h.2

/-- Under the invariant, clearing the stored timer leaves no live timer,
nulls the handle, arms nothing and keeps the timer-id counter. -/
theorem clearReconnectTimer_spec (w : World) (h : TimerInv w) :
    (clearReconnectTimer w).1.liveTimers = [] ∧
    (clearReconnectTimer w).1.svc.reconnectTimer = none ∧
    scheduledTimers (clearReconnectTimer w).2 = [] ∧
    (clearReconnectTimer w).1.nextTimer = w.nextTimer := by
  unfold clearReconnectTimer
  cases hr : w.svc.reconnectTimer with
  | none =>
    refine ⟨?_, hr, rfl, rfl⟩
    apply List.eq_nil_iff_forall_not_mem.mpr
    intro t ht
    have hst := h.1 t ht
    rw [hr] at hst
    exact Option.noConfusion hst
  | some tid =>
    refine ⟨?_, rfl, rfl, rfl⟩
    apply List.filter_eq_nil_iff.mpr
    intro t ht
    have hst := h.1 t ht
    rw [hr] at hst
    have htid : t = tid := (Option.some_injective _ hst).symm
    subst htid
    simp

/-- `scheduledTimers` distributes over concatenation. -/
theorem scheduledTimers_append (a b : List Effect) :
    scheduledTimers (a ++ b) = scheduledTimers a ++ scheduledTimers b := by
  induction a with
  | nil => rfl
  | cons e rest ih =>
    cases e <;> simp [scheduledTimers, ih]

/-- Under the invariant, scheduling a reconnect leaves exactly one live
timer, stores its handle, and arms exactly one 5000 ms timer. -/
theorem scheduleReconnect_spec (w : World) (h : TimerInv w) :
    (scheduleReconnect w).1.liveTimers = [w.nextTimer] ∧
    (scheduleReconnect w).1.svc.reconnectTimer = some w.nextTimer ∧
    scheduledTimers (scheduleReconnect w).2 = [(w.nextTimer, 5000)] := by
  obtain ⟨h1, _, h3, h4⟩ := clearReconnectTimer_spec w h
  refine ⟨?_, ?_, ?_⟩
  · show (clearReconnectTimer w).1.liveTimers ++ [(clearReconnectTimer w).1.nextTimer]
      = [w.nextTimer]
    rw [h1, h4]
    rfl
  · show some (clearReconnectTimer w).1.nextTimer = some w.nextTimer
    rw [h4]
  · show scheduledTimers
      ((clearReconnectTimer w).2 ++ [Effect.setTimer (clearReconnectTimer w).1.nextTimer 5000])
      = [(w.nextTimer, 5000)]
    rw [scheduledTimers_append, h3, h4]
    rfl

/-- Scheduling a reconnect re-establishes the invariant. -/
theorem scheduleReconnect_TimerInv (w : World) (h : TimerInv w) :
    TimerInv (scheduleReconnect w).1 := by
  obtain ⟨h1, h2, _⟩ := scheduleReconnect_spec w h
  constructor
  · intro t ht
    rw [h1] at ht
    have := List.mem_singleton.mp ht
    subst this
    exact h2
  · rw [h1]
    exact Nat.le_refl 1

/-- Clearing the stored timer re-establishes the invariant. -/
theorem clearReconnectTimer_TimerInv (w : World) (h : TimerInv w) :
    TimerInv (clearReconnectTimer w).1 := by
  obtain ⟨h1, _, _, _⟩ := clearReconnectTimer_spec w h
  constructor
  · intro t ht
    rw [h1] at ht
    exact absurd ht (List.not_mem_nil t)
  · rw [h1]
    exact Nat.zero_le 1

/-- `connect` preserves the invariant. -/
theorem connect_TimerInv (b : Bool) (w : World) (h : TimerInv w) :
    TimerInv (connect b w).1 := by
  unfold connect
  by_cases hg : connectGuard w = true
  · rw [if_pos hg]
    exact h
  · rw [if_neg hg]
    cases b with
    | true =>
      exact TimerInv_of_eq _ h rfl rfl
    | false =>
      exact scheduleReconnect_TimerInv _ (TimerInv_of_eq _ h rfl rfl)

/-- `closeSock` only touches the socket table. -/
theorem closeSock_fields (w : World) (sid : Nat) :
    (closeSock w sid).liveTimers = w.liveTimers ∧ (closeSock w sid).svc = w.svc := by
  unfold closeSock
  split
  · exact ⟨rfl, rfl⟩
  · exact ⟨rfl, rfl⟩

/-- Every event of the channel preserves the timer invariant. -/
theorem applyEvent_TimerInv (w : World) (e : Event) (h : TimerInv w) :
    TimerInv (applyEvent w e).1 := by
  cases e with
  | evConnect b => exact connect_TimerInv b w h
  | evOpen sid =>
    exact clearReconnectTimer_TimerInv _ (TimerInv_of_eq _ h rfl rfl)
  | evError sid =>
    exact TimerInv_of_eq _ h rfl rfl
  | evClose sid =>
    exact scheduleReconnect_TimerInv _ (TimerInv_of_eq _ h rfl rfl)
  | evMessage raw =>
    show TimerInv (fireMessage w raw).1
    cases raw with
    | unparseable => exact h
    | parsed m =>
      unfold fireMessage
      dsimp only
      by_cases hc : m.type = "content_moderation"
      · rw [if_pos hc]
        exact h
      · rw [if_neg hc]
        exact h
  | evTimer b tid =>
    show TimerInv (fireTimer b w tid).1
    unfold fireTimer
    apply connect_TimerInv
    constructor
    · intro t ht
      exact h.1 t (List.mem_of_mem_filter ht)
    · exact Nat.le_trans (List.length_filter_le _ _) h.2
  | evDisconnect =>
    show TimerInv (disconnect w).1
    obtain ⟨c1, c2, _, _⟩ := clearReconnectTimer_spec w h
    unfold disconnect
    split
    · next sid heq =>
      constructor
      · intro t ht
        have hlt : (closeSock (clearReconnectTimer w).1 sid).liveTimers
            = (clearReconnectTimer w).1.liveTimers :=
          (closeSock_fields (clearReconnectTimer w).1 sid).1
        rw [show (({ closeSock (clearReconnectTimer w).1 sid with
              svc := { (closeSock (clearReconnectTimer w).1 sid).svc with
                        wsRef := none, listeners := [] } } : World).liveTimers)
            = (closeSock (clearReconnectTimer w).1 sid).liveTimers from rfl, hlt, c1] at ht
        exact absurd ht (List.not_mem_nil t)
      · have hlt : (closeSock (clearReconnectTimer w).1 sid).liveTimers
            = (clearReconnectTimer w).1.liveTimers :=
          (closeSock_fields (clearReconnectTimer w).1 sid).1
        rw [show (({ closeSock (clearReconnectTimer w).1 sid with
              svc := { (closeSock (clearReconnectTimer w).1 sid).svc with
                        wsRef := none, listeners := [] } } : World).liveTimers)
            = (closeSock (clearReconnectTimer w).1 sid).liveTimers from rfl, hlt, c1]
        exact Nat.zero_le 1
    · constructor
      · intro t ht
        rw [show (({ (clearReconnectTimer w).1 with
              svc := { (clearReconnectTimer w).1.svc with listeners := [] } } : World).liveTimers)
            = (clearReconnectTimer w).1.liveTimers from rfl, c1] at ht
        exact absurd ht (List.not_mem_nil t)
      · rw [show (({ (clearReconnectTimer w).1 with
              svc := { (clearReconnectTimer w).1.svc with listeners := [] } } : World).liveTimers)
            = (clearReconnectTimer w).1.liveTimers from rfl, c1]
        exact Nat.zero_le 1
  | evSubscribe id cb =>
    exact TimerInv_of_eq _ h rfl rfl
  | evUnsubscribe id =>
    exact TimerInv_of_eq _ h rfl rfl

/-! ### Theorems for the transport-channel claims -/

/-- Any close event arms exactly one 5000 ms reconnect timer. -/
theorem fireClose_scheduled (w : World) (sid : Nat) (h : TimerInv w) :
    scheduledTimers (fireClose w sid).2 = [(w.nextTimer, 5000)] := by
  unfold fireClose
  obtain ⟨_, _, h3⟩ := scheduleReconnect_spec
    { setSockState w sid SockState.closed with
        svc := { (setSockState w sid SockState.closed).svc with isConnecting := false } }
    (TimerInv_of_eq _ h rfl rfl)
  rw [h3]
  rfl

/-- Dispatching runs every registered callback exactly once, in order,
whether or not it raises. -/
theorem invokedIds_notify (ls : List (String × Callback)) (u : ParsedMessage) :
    invokedIds (notifyListeners ls u) = ls.map Prod.fst := by
  induction ls with
  | nil => rfl
  | cons p rest ih =>
    obtain ⟨id, cb⟩ := p
    unfold notifyListeners
    cases hcb : cb u with
    | ok v => simp [invokedIds, ih]
    | error v => simp [invokedIds, ih]

/-- C5 counterexample: a parsed message whose `type` is
`content_moderation` but which carries no well-formed moderation action is
nevertheless dispatched — at a state with one subscriber, one callback is
invoked, not zero.  Only the discriminator is validated. -/
theorem malformed_payload_dispatched :
    (applyEvent wLive (Event.evMessage
        (RawMessage.parsed { type := "content_moderation", action := none }))).2
      = [Effect.invoke "hateraide-analysis" true] := rfl

/-- C5 as amended: a message that fails to parse, or whose `type`
discriminator is not `content_moderation`, invokes zero callbacks and
leaves the channel state unchanged (the channel never crashes on it). -/
theorem nonmatching_message_discarded (w : World) (raw : RawMessage)
    (h : raw = RawMessage.unparseable ∨
      ∃ m, raw = RawMessage.parsed m ∧ m.type ≠ "content_moderation") :
    applyEvent w (Event.evMessage raw) = (w, []) := by
  rcases h with h | ⟨m, h, hm⟩
  · subst h
    rfl
  · subst h
    show fireMessage w (RawMessage.parsed m) = (w, [])
    unfold fireMessage
    dsimp only
    rw [if_neg hm]

/-- Witness for the amended C5: a `ping` message is silently discarded. -/
theorem nonmatching_message_discarded_witness :
    applyEvent wLive (Event.evMessage (RawMessage.parsed { type := "ping", action := none }))
      = (wLive, []) :=
  nonmatching_message_discarded wLive _
    (Or.inr ⟨{ type := "ping", action := none }, rfl, by decide⟩)

/-- C6: for every dispatched moderation update, every currently registered
callback is invoked exactly once, in registration order — the listener
lists quantified over here include callbacks that raise, whose failure is
swallowed by the per-callback `try`/`catch` — and the channel's internal
state is left completely unchanged. -/
theorem listener_isolation (w : World) (m : ParsedMessage)
    (h : m.type = "content_moderation") :
    (applyEvent w (Event.evMessage (RawMessage.parsed m))).1 = w ∧
    invokedIds (applyEvent w (Event.evMessage (RawMessage.parsed m))).2
      = w.svc.listeners.map Prod.fst := by
  show (fireMessage w (RawMessage.parsed m)).1 = w ∧
    invokedIds (fireMessage w (RawMessage.parsed m)).2 = w.svc.listeners.map Prod.fst
  unfold fireMessage
  dsimp only
  rw [if_pos h]
  exact ⟨rfl, invokedIds_notify w.svc.listeners m⟩

/-- Witness for C6 at a state whose first subscriber raises: both
subscribers are still invoked once each and the state is unchanged. -/
theorem listener_isolation_witness :
    (applyEvent wIso (Event.evMessage (RawMessage.parsed updIso))).1 = wIso ∧
    invokedIds (applyEvent wIso (Event.evMessage (RawMessage.parsed updIso))).2
      = ["reply-r1", "reply-r2"] := by
  have h := listener_isolation wIso updIso rfl
  refine ⟨h.1, ?_⟩
  rw [h.2]
  rfl

/-- C7: `connect()` is idempotent — when the referenced socket is open or
a connection attempt is in flight, it creates no socket, emits no effect
and changes no state. -/
theorem connect_idempotent (w : World) (ctorOk : Bool)
    (h : w.svc.isConnecting = true ∨
      ∃ sid, w.svc.wsRef = some sid ∧ sockState w sid = some SockState.opened) :
    connect ctorOk w = (w, []) := by
  have hg : connectGuard w = true := by
    unfold connectGuard
    rcases h with h | ⟨sid, h1, h2⟩
    · rw [h, Bool.or_true]
    · rw [h1]
      dsimp only
      rw [decide_eq_true h2, Bool.true_or]
  unfold connect
  rw [if_pos hg]

/-- Witness for C7 at a state with an attempt in flight. -/
theorem connect_idempotent_witness : connect true wConn = (wConn, []) :=
  connect_idempotent wConn true (Or.inl rfl)

/-- C8 counterexample: an error event schedules no reconnect at all — the
`onerror` handler only resets the connecting flag — so "on every
connection error or close event, exactly one reconnect attempt is
scheduled" fails on the error half. -/
theorem error_event_schedules_nothing :
    scheduledTimers (applyEvent wOpen (Event.evError 0)).2 = [] ∧
    (applyEvent wOpen (Event.evError 0)).1.liveTimers = [] ∧
    (applyEvent wOpen (Event.evError 0)).1.svc.reconnectTimer = none :=
  ⟨rfl, rfl, rfl⟩

/-- C8 as amended: every event preserves the at-most-one-pending-timer
invariant (each schedule first cancels any prior pending timer), and every
close event arms exactly one reconnect timer with the fixed 5000 ms
delay. -/
theorem close_schedules_single_reconnect (w : World) (e : Event) (h : TimerInv w) :
    TimerInv (applyEvent w e).1 ∧
    (∀ sid, e = Event.evClose sid →
      scheduledTimers (applyEvent w e).2 = [(w.nextTimer, 5000)]) := by
  refine ⟨applyEvent_TimerInv w e h, ?_⟩
  rintro sid rfl
  exact fireClose_scheduled w sid h

/-- Witness for the amended C8 at a concrete close event. -/
theorem close_schedules_single_reconnect_witness :
    TimerInv (applyEvent wOpen (Event.evClose 0)).1 ∧
    scheduledTimers (applyEvent wOpen (Event.evClose 0)).2 = [(0, 5000)] := by
  have h := close_schedules_single_reconnect wOpen (Event.evClose 0)
    ⟨fun t ht => absurd ht (List.not_mem_nil t), Nat.zero_le 1⟩
  exact ⟨h.1, h.2 0 rfl⟩

/-- C9 (code bug): `disconnect()` on an open connection closes the socket
but leaves its `onclose` handler attached, so the resulting close event
schedules a reconnect (5000 ms timer armed) and, when the timer fires, a
new socket is created and stored — a reconnect attempt and a new
connection after `disconnect()`, contradicting the spec's "no further
reconnect attempt occurs and no connection exists". -/
theorem disconnect_close_event_reconnects :
    scheduledTimers (applyEvent (applyEvent wLive Event.evDisconnect).1 (Event.evClose 0)).2
      = [(0, 5000)] ∧
    (applyEvent (applyEvent (applyEvent wLive Event.evDisconnect).1 (Event.evClose 0)).1
        (Event.evTimer true 0)).2 = [Effect.createSocket 1] ∧
    (applyEvent (applyEvent (applyEvent wLive Event.evDisconnect).1 (Event.evClose 0)).1
        (Event.evTimer true 0)).1.svc.wsRef = some 1 :=
  ⟨rfl, rfl, rfl⟩

/-- C10: a dispatched moderation update reaches every per-reply
subscriber (the dispatched feed keeps exactly the subscribed ids); a
subscriber whose id differs from the update's `action.reply_id` keeps its
state unchanged, while the matching subscriber stores the new action and
resets both revealed flags to `false`. -/
theorem reply_subscription_update (feed : List (String × ReplyModState))
    (action : ModerationAction) :
    (feedOnModerationUpdate feed action).map Prod.fst = feed.map Prod.fst ∧
    ∀ rid st, (rid, st) ∈ feed →
      (action.reply_id ≠ rid → (rid, st) ∈ feedOnModerationUpdate feed action) ∧
      (action.reply_id = rid →
        (rid, { moderationAction := some action, isContentRevealed := false
                isMediaRevealed := false })
          ∈ feedOnModerationUpdate feed action) := by
  constructor
  · unfold feedOnModerationUpdate
    rw [List.map_map]
    rfl
  · intro rid st hmem
    constructor
    · intro hne
      have h2 := List.mem_map_of_mem
        (fun p : String × ReplyModState => (p.1, replyOnModerationUpdate p.1 p.2 action)) hmem
      dsimp only at h2
      rw [show replyOnModerationUpdate rid st action = st by
        unfold replyOnModerationUpdate; rw [if_neg hne]] at h2
      exact h2
    · intro heq
      have h2 := List.mem_map_of_mem
        (fun p : String × ReplyModState => (p.1, replyOnModerationUpdate p.1 p.2 action)) hmem
      dsimp only at h2
      rw [show replyOnModerationUpdate rid st action
            = { moderationAction := some action, isContentRevealed := false
                isMediaRevealed := false } by
        unfold replyOnModerationUpdate; rw [if_pos heq]] at h2
      exact h2

/-- Witness for C10: on a concrete feed, an update for `"r2"` leaves the
revealed `"r1"` state untouched and re-hides `"r2"` with the new action. -/
theorem reply_subscription_update_witness :
    ("r1", stRevealed) ∈ feedOnModerationUpdate feedW liveActW ∧
    ("r2", ({ moderationAction := some liveActW, isContentRevealed := false
              isMediaRevealed := false } : ReplyModState))
      ∈ feedOnModerationUpdate feedW liveActW := by
  have h := (reply_subscription_update feedW liveActW).2
  refine ⟨(h "r1" stRevealed ?_).1 ?_, (h "r2" stRevealed ?_).2 rfl⟩
  · exact List.mem_cons_self _ _
  · decide
  · exact List.mem_cons_of_mem _ (List.mem_cons_self _ _)

end HaterAide
